import Mathlib

/-!
Shallow embedding of the `go-practice` HTTP server skeleton
(`src/main.go` and `src/unnamed/part_000`).

A response writer is modelled as the ordered list of observable actions the
handler performs on it (`Header().Set`, `Header().Del`, `WriteHeader`,
`Write`), following Go's `net/http` semantics: the first `Write` with no
prior `WriteHeader` implicitly writes status 200, only the first
`WriteHeader` determines the status, and `http.Error` sets the plain-text
headers, writes the status code and prints the message followed by a
newline (`fmt.Fprintln`).

The router models `http.ServeMux` pattern matching on the three registered
patterns: exact match first, then the longest registered subtree pattern
(a pattern ending in a slash) that is a leading segment of the path.  Path
canonicalisation and redirects of `ServeMux` are outside the model; they do
not act on any path considered here.
-/

namespace GoPractice

/-- Observable actions performed on an `http.ResponseWriter`, in program
order.  `setHeader` and `delHeader` model `Header().Set` and
`Header().Del`, `writeHeader` models `WriteHeader`, and `write` models
`Write` with the bytes kept as a `String`. -/
inductive Event where
  | setHeader (name value : String)
  | delHeader (name : String)
  | writeHeader (code : Nat)
  | write (s : String)
  deriving DecidableEq, Repr

/-- The state of a response: the list of actions performed so far. -/
structure ResponseWriter where
  events : List Event
  deriving DecidableEq, Repr

def ResponseWriter.empty : ResponseWriter := ⟨[]⟩

/-- Whether `WriteHeader` has already run (explicitly or implicitly). -/
def ResponseWriter.wroteHeader (w : ResponseWriter) : Bool :=
  w.events.any fun e => match e with
    | .writeHeader _ => true
    | _ => false

/-- `w.Header().Set(name, value)`. -/
def ResponseWriter.setHeader (w : ResponseWriter) (name value : String) : ResponseWriter :=
  ⟨w.events ++ [.setHeader name value]⟩

/-- `w.Header().Del(name)`. -/
def ResponseWriter.delHeader (w : ResponseWriter) (name : String) : ResponseWriter :=
  ⟨w.events ++ [.delHeader name]⟩

/-- `w.WriteHeader(code)`. -/
def ResponseWriter.writeHeader (w : ResponseWriter) (code : Nat) : ResponseWriter :=
  ⟨w.events ++ [.writeHeader code]⟩

/-- `w.Write(bytes)`: a first write with no explicit status implicitly
writes status 200, as `net/http` does. -/
def ResponseWriter.write (w : ResponseWriter) (s : String) : ResponseWriter :=
  if w.wroteHeader then ⟨w.events ++ [.write s]⟩
  else ⟨w.events ++ [.writeHeader 200, .write s]⟩

/-- The response status: the first `WriteHeader` wins (`net/http` ignores
later calls and only logs a warning). -/
def ResponseWriter.status (w : ResponseWriter) : Option Nat :=
  w.events.findSome? fun e => match e with
    | .writeHeader c => some c
    | _ => none

/-- The response body: the concatenation of all writes. -/
def ResponseWriter.body (w : ResponseWriter) : String :=
  w.events.foldl (fun acc e => match e with
    | .write s => acc ++ s
    | _ => acc) ""

/-- The individual body writes, in order. -/
def ResponseWriter.bodyWrites (w : ResponseWriter) : List String :=
  w.events.filterMap fun e => match e with
    | .write s => some s
    | _ => none

/-- The status-line writes, in order (`net/http` requires exactly one). -/
def ResponseWriter.statusWrites (w : ResponseWriter) : List Nat :=
  w.events.filterMap fun e => match e with
    | .writeHeader c => some c
    | _ => none

/-- The header map after replaying the `Set`/`Del` actions in order:
`Set` replaces any previous value for the name, `Del` removes it. -/
def headersAfter (evs : List Event) : List (String × String) :=
  evs.foldl (fun hs e => match e with
    | .setHeader n v => hs.filter (fun q => decide (q.1 ≠ n)) ++ [(n, v)]
    | .delHeader n => hs.filter (fun q => decide (q.1 ≠ n))
    | _ => hs) []

/-- The final value of header `name`, if set. -/
def ResponseWriter.headerGet (w : ResponseWriter) (name : String) : Option String :=
  (headersAfter w.events).findSome? fun q => if q.1 = name then some q.2 else none

/-- The parts of an `http.Request` this program reads: `r.Method` and
`r.URL.Path`. -/
structure Request where
  method : String
  path : String
  deriving DecidableEq, Repr

/-- Model of `http.Error(w, error, code)`: deletes `Content-Length`, sets
the plain-text content-type headers, writes the status code and prints the
message with a trailing newline (`fmt.Fprintln`). -/
def httpError (w : ResponseWriter) (error : String) (code : Nat) : ResponseWriter :=
  ((((w.delHeader "Content-Length").setHeader "Content-Type"
        "text/plain; charset=utf-8").setHeader "X-Content-Type-Options"
      "nosniff").writeHeader code).write (error ++ "\n")

/-- Model of `http.NotFound(w, r)`:
`http.Error(w, "404 page not found", 404)`. -/
def notFound (w : ResponseWriter) (_r : Request) : ResponseWriter :=
  httpError w "404 page not found" 404

/-- The `home` handler of `src/main.go`: a path other than `/` gets
`http.NotFound` and the handler returns; otherwise it writes a fixed
body. -/
def home (w : ResponseWriter) (r : Request) : ResponseWriter :=
  if r.path ≠ "/" then notFound w r
  else w.write "Hello, World!"

/-- The `snippetView` handler of `src/main.go`: unconditionally writes a
fixed body. -/
def snippetView (w : ResponseWriter) (_r : Request) : ResponseWriter :=
  w.write "Display a snippet..."

/-- The `snippetCreate` handler of `src/main.go`: a method other than
`POST` gets the `Allow: POST` header and
`http.Error(w, "Method Not Allowed", 405)`, and the handler returns;
`POST` gets a fixed body. -/
def snippetCreate (w : ResponseWriter) (r : Request) : ResponseWriter :=
  if r.method ≠ "POST" then
    httpError (w.setHeader "Allow" "POST") "Method Not Allowed" 405
  else
    w.write "Create a new snippet..."

namespace Part000

/-- The `home` handler of `src/unnamed/part_000`: unconditionally writes a
fixed body, with no path check. -/
def home (w : ResponseWriter) (_r : Request) : ResponseWriter :=
  w.write "Hello, World!"

end Part000

/-- Whether `pre` is a leading segment of `s`, on the character lists. -/
def strStartsWith (s pre : String) : Bool :=
  pre.data.isPrefixOf s.data

/-- A subtree pattern is one ending in a slash (`ServeMux` semantics). -/
def isSubtree (pat : String) : Bool :=
  decide (pat.data.getLast? = some '/')

/-- A multiplexer: the registered `(pattern, handler)` bindings, in
registration order. -/
structure Mux (H : Type) where
  entries : List (String × H)

/-- Of two bindings, the one with the longer pattern (the first on a tie). -/
def pickLonger {H : Type} (b e : String × H) : String × H :=
  if b.1.length < e.1.length then e else b

/-- The best subtree match for `p` among `l`, starting from `acc`: the
binding whose subtree pattern is the longest leading segment of `p`.  This
is `ServeMux`'s longest-match scan over patterns ending in a slash. -/
def bestMatch {H : Type} (p : String) : Option (String × H) → List (String × H) → Option (String × H)
  | acc, [] => acc
  | acc, e :: rest =>
    if isSubtree e.1 && strStartsWith p e.1 then
      match acc with
      | none => bestMatch p (some e) rest
      | some b => bestMatch p (some (pickLonger b e)) rest
    else
      bestMatch p acc rest

/-- `ServeMux` handler resolution for a path: an exact pattern match wins;
otherwise the longest matching subtree pattern; otherwise no handler.
Resolution only returns the handler, it does not run it. -/
def Mux.dispatch {H : Type} (m : Mux H) (p : String) : Option H :=
  match m.entries.find? (fun e => decide (e.1 = p)) with
  | some e => some e.2
  | none => (bestMatch p none m.entries).map Prod.snd

/-- Re-binding every pattern to a new handler value. -/
def Mux.map {H H' : Type} (f : H → H') (m : Mux H) : Mux H' :=
  ⟨m.entries.map fun e => (e.1, f e.2)⟩

/-- Names for the three handlers registered in `main` of `src/main.go`. -/
inductive HandlerId where
  | home
  | snippetView
  | snippetCreate
  deriving DecidableEq, Repr

/-- The routing table built in `main` of `src/main.go`. -/
def appMux : Mux HandlerId :=
  ⟨[("/", .home), ("/snippet/view", .snippetView), ("/snippet/create", .snippetCreate)]⟩

/-- The handler function each registered name denotes. -/
def runHandler : HandlerId → ResponseWriter → Request → ResponseWriter
  | .home => home
  | .snippetView => snippetView
  | .snippetCreate => snippetCreate

/-- One request served by the program: resolve the handler through the
mux and run it on a fresh response; with no match, `ServeMux` serves its
not-found handler. -/
def serve (r : Request) : ResponseWriter :=
  match appMux.dispatch r.path with
  | some h => runHandler h ResponseWriter.empty r
  | none => httpError ResponseWriter.empty "404 page not found" 404

/-! Helper lemmas: handler resolution is natural in the handler type, so it
cannot depend on (let alone invoke) the handler values it returns. -/

/-- Re-binding handlers commutes with the longest-subtree-match scan. -/
theorem bestMatch_map {H Hb : Type} (f : H → Hb) (p : String) :
    ∀ (l : List (String × H)) (acc : Option (String × H)),
    bestMatch p (acc.map fun e => (e.1, f e.2)) (l.map fun e => (e.1, f e.2)) =
      (bestMatch p acc l).map fun e => (e.1, f e.2)
  | [], acc => rfl
  | e :: rest, acc => by
    simp only [List.map, bestMatch]
    by_cases h : (isSubtree e.1 && strStartsWith p e.1) = true
    · rw [if_pos h, if_pos h]
      cases acc with
      | none => simpa using bestMatch_map f p rest (some e)
      | some b =>
        have : pickLonger (b.1, f b.2) (e.1, f e.2) =
            ((pickLonger b e).1, f (pickLonger b e).2) := by
          unfold pickLonger
          by_cases hlt : b.1.length < e.1.length
          · rw [if_pos hlt, if_pos hlt]
          · rw [if_neg hlt, if_neg hlt]
        simpa [this] using bestMatch_map f p rest (some (pickLonger b e))
    · rw [if_neg h, if_neg h]
      exact bestMatch_map f p rest acc

/-- Re-binding handlers commutes with dispatch: resolution reads only the
patterns, never the handlers. -/
theorem Mux.dispatch_map {H Hb : Type} (f : H → Hb) (m : Mux H) (p : String) :
    (m.map f).dispatch p = (m.dispatch p).map f := by
  unfold Mux.dispatch Mux.map
  rw [List.find?_map]
  have hcomp : ((fun e : String × Hb => decide (e.1 = p)) ∘ fun e : String × H => (e.1, f e.2)) =
      fun e : String × H => decide (e.1 = p) := rfl
  rw [hcomp]
  cases hf : m.entries.find? (fun e => decide (e.1 = p)) with
  | some e => simp
  | none =>
    have hb := bestMatch_map f p m.entries none
    simp only [Option.map_none'] at hb
    simp only [Option.map_none']
    rw [hb]
    cases bestMatch p none m.entries <;> simp

/-- Claim C4: a request whose path is exactly `/` gets status 200 and body
`Hello, World!` from the `home` handler. -/
theorem home_root_200 (r : Request) (h : r.path = "/") :
    (home ResponseWriter.empty r).status = some 200 ∧
    (home ResponseWriter.empty r).body = "Hello, World!" := by
  have h2 : home ResponseWriter.empty r = ResponseWriter.empty.write "Hello, World!" := by
    unfold home
    rw [if_neg]
    simp [h]
  rw [h2]
  exact ⟨by decide, by decide⟩

/-- Claim C4, witness: the theorem applied at a concrete root request. -/
theorem home_root_200_witness :
    (home ResponseWriter.empty ⟨"GET", "/"⟩).status = some 200 ∧
    (home ResponseWriter.empty ⟨"GET", "/"⟩).body = "Hello, World!" :=
  home_root_200 ⟨"GET", "/"⟩ rfl

/-- Claim C3: every request whose path is not `/` gets exactly the standard
not-found response from the `home` handler (status 404, the standard
not-found body, and nothing else). -/
theorem home_not_root_404 (r : Request) (h : r.path ≠ "/") :
    home ResponseWriter.empty r = httpError ResponseWriter.empty "404 page not found" 404 ∧
    (home ResponseWriter.empty r).status = some 404 ∧
    (home ResponseWriter.empty r).body = "404 page not found\n" := by
  have h2 : home ResponseWriter.empty r =
      httpError ResponseWriter.empty "404 page not found" 404 := by
    unfold home
    rw [if_pos h]
    rfl
  rw [h2]
  exact ⟨rfl, by decide, by decide⟩

/-- Claim C3, witness: the theorem applied at a concrete non-root path. -/
theorem home_not_root_404_witness :
    (home ResponseWriter.empty ⟨"GET", "/foo"⟩).status = some 404 :=
  (home_not_root_404 ⟨"GET", "/foo"⟩ (by decide)).2.1

/-- Claim C1, counterexample: on a GET to `/snippet/create`, the handler does
set `Allow: POST` and status 405, but the body written is not the exact
string `Method Not Allowed`: `http.Error` prints the message through
`fmt.Fprintln`, which appends a newline. -/
theorem snippetCreate_body_newline_cex :
    ¬ ((snippetCreate ResponseWriter.empty ⟨"GET", "/snippet/create"⟩).headerGet "Allow" =
         some "POST" ∧
       (snippetCreate ResponseWriter.empty ⟨"GET", "/snippet/create"⟩).status = some 405 ∧
       (snippetCreate ResponseWriter.empty ⟨"GET", "/snippet/create"⟩).body =
         "Method Not Allowed") := by
  decide

/-- Claim C1, amended: for every request whose method is not exactly `POST`,
`snippetCreate` sets header `Allow: POST`, writes status 405, and writes
body `Method Not Allowed` followed by a newline. -/
theorem snippetCreate_non_post_error (r : Request) (h : r.method ≠ "POST") :
    (snippetCreate ResponseWriter.empty r).headerGet "Allow" = some "POST" ∧
    (snippetCreate ResponseWriter.empty r).status = some 405 ∧
    (snippetCreate ResponseWriter.empty r).body = "Method Not Allowed\n" := by
  have h2 : snippetCreate ResponseWriter.empty r =
      httpError (ResponseWriter.empty.setHeader "Allow" "POST") "Method Not Allowed" 405 := by
    unfold snippetCreate
    rw [if_pos h]
  rw [h2]
  exact ⟨by decide, by decide, by decide⟩

/-- Claim C1, witness: the amended theorem applied at a concrete GET. -/
theorem snippetCreate_non_post_error_witness :
    (snippetCreate ResponseWriter.empty ⟨"GET", "/snippet/create"⟩).status = some 405 :=
  (snippetCreate_non_post_error ⟨"GET", "/snippet/create"⟩ (by decide)).2.1

/-- Claim C5: a `POST` request to `/snippet/create` is served with status 200
and body `Create a new snippet...`. -/
theorem snippetCreate_post_200 (r : Request) (hm : r.method = "POST")
    (hp : r.path = "/snippet/create") :
    (serve r).status = some 200 ∧ (serve r).body = "Create a new snippet..." := by
  have h2 : r = ⟨"POST", "/snippet/create"⟩ := by
    cases r
    simp_all
  rw [h2]
  exact ⟨by decide, by decide⟩

/-- Claim C5, witness: the theorem applied at the concrete POST request. -/
theorem snippetCreate_post_200_witness :
    (serve ⟨"POST", "/snippet/create"⟩).body = "Create a new snippet..." :=
  (snippetCreate_post_200 ⟨"POST", "/snippet/create"⟩ rfl rfl).2

/-- Claim C6: a request to `/snippet/view` with any method is served with
status 200 and body `Display a snippet...`, unconditionally. -/
theorem snippetView_always_200 (r : Request) (hp : r.path = "/snippet/view") :
    (serve r).status = some 200 ∧ (serve r).body = "Display a snippet..." := by
  obtain ⟨m, p⟩ := r
  have hp2 : p = "/snippet/view" := hp
  subst hp2
  exact ⟨rfl, rfl⟩

/-- Claim C6, witness: the theorem applied with a non-GET, non-POST method. -/
theorem snippetView_always_200_witness :
    (serve ⟨"DELETE", "/snippet/view"⟩).status = some 200 ∧
    (serve ⟨"DELETE", "/snippet/view"⟩).body = "Display a snippet..." :=
  snippetView_always_200 ⟨"DELETE", "/snippet/view"⟩ rfl

/-- Claim C7: on a non-`POST` request, `snippetCreate` performs exactly the
405 error sequence and nothing afterwards: the event trace is the
`Allow: POST` header, the error headers, one status write of 405 placed
before the single body write, and that body write is the error message; in
particular the success body `Create a new snippet...` is never written. -/
theorem snippetCreate_non_post_trace (r : Request) (h : r.method ≠ "POST") :
    (snippetCreate ResponseWriter.empty r).events =
      [Event.setHeader "Allow" "POST", Event.delHeader "Content-Length",
       Event.setHeader "Content-Type" "text/plain; charset=utf-8",
       Event.setHeader "X-Content-Type-Options" "nosniff",
       Event.writeHeader 405, Event.write "Method Not Allowed\n"] ∧
    (snippetCreate ResponseWriter.empty r).bodyWrites = ["Method Not Allowed\n"] ∧
    "Create a new snippet..." ∉ (snippetCreate ResponseWriter.empty r).bodyWrites ∧
    (snippetCreate ResponseWriter.empty r).statusWrites = [405] := by
  have h2 : snippetCreate ResponseWriter.empty r =
      httpError (ResponseWriter.empty.setHeader "Allow" "POST") "Method Not Allowed" 405 := by
    unfold snippetCreate
    rw [if_pos h]
  rw [h2]
  exact ⟨by decide, by decide, by decide, by decide⟩

/-- Claim C7, witness: the theorem applied at a concrete PUT request. -/
theorem snippetCreate_non_post_trace_witness :
    (snippetCreate ResponseWriter.empty ⟨"PUT", "/snippet/create"⟩).bodyWrites =
      ["Method Not Allowed\n"] :=
  (snippetCreate_non_post_trace ⟨"PUT", "/snippet/create"⟩ (by decide)).2.1

/-- Claim C8: the paths `/snippet/view/` and `/snippet/create/` match neither
exact pattern, dispatch falls through to the root subtree pattern, and the
`home` handler answers 404 because the path is not `/`. -/
theorem trailing_slash_falls_to_home (r : Request)
    (h : r.path = "/snippet/view/" ∨ r.path = "/snippet/create/") :
    appMux.dispatch r.path = some HandlerId.home ∧
    (serve r).status = some 404 ∧
    (serve r).body = "404 page not found\n" := by
  obtain ⟨m, p⟩ := r
  rcases h with h | h
  · have h2 : p = "/snippet/view/" := h
    subst h2
    refine ⟨?_, rfl, rfl⟩
    show appMux.dispatch "/snippet/view/" = some HandlerId.home
    decide
  · have h2 : p = "/snippet/create/" := h
    subst h2
    refine ⟨?_, rfl, rfl⟩
    show appMux.dispatch "/snippet/create/" = some HandlerId.home
    decide

/-- Claim C8, witness: the theorem applied at a concrete trailing-slash
request. -/
theorem trailing_slash_falls_to_home_witness :
    (serve ⟨"GET", "/snippet/view/"⟩).status = some 404 :=
  (trailing_slash_falls_to_home ⟨"GET", "/snippet/view/"⟩ (Or.inl rfl)).2.1

/-- Claim C9: every handler, and the served response, is a function of the
request's method and path alone: two requests agreeing on both receive
identical responses. -/
theorem handlers_deterministic (r1 r2 : Request) (w : ResponseWriter)
    (hm : r1.method = r2.method) (hp : r1.path = r2.path) :
    home w r1 = home w r2 ∧ snippetView w r1 = snippetView w r2 ∧
    snippetCreate w r1 = snippetCreate w r2 ∧ serve r1 = serve r2 := by
  have h2 : r1 = r2 := by
    cases r1
    cases r2
    simp_all
  rw [h2]
  exact ⟨rfl, rfl, rfl, rfl⟩

/-- Claim C9, witness: the theorem applied at a concrete pair of equal
requests. -/
theorem handlers_deterministic_witness :
    serve ⟨"GET", "/"⟩ = serve ⟨"GET", "/"⟩ :=
  (handlers_deterministic ⟨"GET", "/"⟩ ⟨"GET", "/"⟩ ResponseWriter.empty rfl rfl).2.2.2

/-- Claim C10, counterexample: the two `home` handlers are not equivalent.
On the request `GET /foo`, the `part_000` handler answers 200 with
`Hello, World!` while the `main.go` handler answers 404, so status and body
both differ. -/
theorem part000_home_equiv_cex :
    ¬ ((Part000.home ResponseWriter.empty ⟨"GET", "/foo"⟩).status =
         (home ResponseWriter.empty ⟨"GET", "/foo"⟩).status ∧
       (Part000.home ResponseWriter.empty ⟨"GET", "/foo"⟩).body =
         (home ResponseWriter.empty ⟨"GET", "/foo"⟩).body) := by
  decide

/-- Claim C10, amended: the two `home` handlers agree exactly on requests
with path `/` (both answer 200 with `Hello, World!`); the `part_000`
handler answers 200 with `Hello, World!` on every request, while on any
other path the `main.go` handler answers 404 with the standard not-found
body. -/
theorem part000_home_differs (r : Request) :
    (r.path = "/" → Part000.home ResponseWriter.empty r = home ResponseWriter.empty r) ∧
    (Part000.home ResponseWriter.empty r).status = some 200 ∧
    (Part000.home ResponseWriter.empty r).body = "Hello, World!" ∧
    (r.path ≠ "/" →
      (home ResponseWriter.empty r).status = some 404 ∧
      (home ResponseWriter.empty r).body = "404 page not found\n") := by
  refine ⟨?_, rfl, rfl, ?_⟩
  · intro h
    have h2 : home ResponseWriter.empty r = ResponseWriter.empty.write "Hello, World!" := by
      unfold home
      rw [if_neg]
      simp [h]
    rw [h2]
    rfl
  · intro h
    have h2 : home ResponseWriter.empty r =
        httpError ResponseWriter.empty "404 page not found" 404 := by
      unfold home
      rw [if_pos h]
      rfl
    rw [h2]
    exact ⟨by decide, by decide⟩

/-- Claim C10, witness: the amended theorem applied at the root request,
where the two handlers agree. -/
theorem part000_home_differs_witness :
    Part000.home ResponseWriter.empty ⟨"GET", "/"⟩ = home ResponseWriter.empty ⟨"GET", "/"⟩ :=
  (part000_home_differs ⟨"GET", "/"⟩).1 rfl

/-- Claim C2: handler resolution over the three registered patterns obeys
the dispatch contract: an entry whose pattern equals the path wins (exact
match first); with no exact match, the entry with the longest subtree
pattern that is a leading segment of the path wins; with no match at all
the result is none; and resolution commutes with re-binding the handlers,
so it only resolves the handler and cannot invoke it. -/
theorem dispatch_resolution_rules (p : String) :
    (∀ e ∈ appMux.entries, e.1 = p → appMux.dispatch p = some e.2) ∧
    ((∀ e ∈ appMux.entries, e.1 ≠ p) →
      ∀ e ∈ appMux.entries, isSubtree e.1 = true → strStartsWith p e.1 = true →
        (∀ e2 ∈ appMux.entries, isSubtree e2.1 = true → strStartsWith p e2.1 = true →
          e2.1.length ≤ e.1.length) →
        appMux.dispatch p = some e.2) ∧
    ((∀ e ∈ appMux.entries, e.1 ≠ p ∧
        ¬(isSubtree e.1 = true ∧ strStartsWith p e.1 = true)) →
      appMux.dispatch p = none) ∧
    (∀ (H : Type) (f : HandlerId → H), (appMux.map f).dispatch p = (appMux.dispatch p).map f) := by
  have s1 : isSubtree "/" = true := by decide
  have s2 : isSubtree "/snippet/view" = false := by decide
  have s3 : isSubtree "/snippet/create" = false := by decide
  refine ⟨?_, ?_, ?_, ?_⟩
  · intro e he heq
    have he2 : e = ("/", HandlerId.home) ∨ e = ("/snippet/view", HandlerId.snippetView) ∨
        e = ("/snippet/create", HandlerId.snippetCreate) := by
      simpa [appMux] using he
    rcases he2 with rfl | rfl | rfl <;> (simp only at heq; subst heq; decide)
  · intro hne e he hsub hpre _hmax
    have he2 : e = ("/", HandlerId.home) ∨ e = ("/snippet/view", HandlerId.snippetView) ∨
        e = ("/snippet/create", HandlerId.snippetCreate) := by
      simpa [appMux] using he
    rcases he2 with rfl | rfl | rfl
    · have d1 : (decide (("/" : String) = p)) = false :=
        decide_eq_false (hne ("/", HandlerId.home) (by simp [appMux]))
      have d2 : (decide (("/snippet/view" : String) = p)) = false :=
        decide_eq_false (hne ("/snippet/view", HandlerId.snippetView) (by simp [appMux]))
      have d3 : (decide (("/snippet/create" : String) = p)) = false :=
        decide_eq_false (hne ("/snippet/create", HandlerId.snippetCreate) (by simp [appMux]))
      simp only at hpre
      simp [Mux.dispatch, appMux, List.find?, bestMatch, d1, d2, d3, s1, s2, s3, hpre]
    · simp only at hsub
      rw [s2] at hsub
      exact absurd hsub (by decide)
    · simp only at hsub
      rw [s3] at hsub
      exact absurd hsub (by decide)
  · intro h
    have d1 : (decide (("/" : String) = p)) = false :=
      decide_eq_false (h ("/", HandlerId.home) (by simp [appMux])).1
    have d2 : (decide (("/snippet/view" : String) = p)) = false :=
      decide_eq_false (h ("/snippet/view", HandlerId.snippetView) (by simp [appMux])).1
    have d3 : (decide (("/snippet/create" : String) = p)) = false :=
      decide_eq_false (h ("/snippet/create", HandlerId.snippetCreate) (by simp [appMux])).1
    have hpre : strStartsWith p "/" = false := by
      rcases h ("/", HandlerId.home) (by simp [appMux]) with ⟨_, hn⟩
      cases hx : strStartsWith p "/" with
      | false => rfl
      | true => exact absurd ⟨s1, hx⟩ hn
    simp [Mux.dispatch, appMux, List.find?, bestMatch, d1, d2, d3, s1, s2, s3, hpre]
  · intro H f
    exact Mux.dispatch_map f appMux p

/-- Claim C2, witness: the exact pattern `/snippet/view` resolves to its own
handler even though the subtree pattern `/` also matches. -/
theorem dispatch_resolution_rules_witness :
    appMux.dispatch "/snippet/view" = some HandlerId.snippetView :=
  (dispatch_resolution_rules "/snippet/view").1 ("/snippet/view", HandlerId.snippetView)
    (by decide) rfl

end GoPractice
